import Mathlib

/-!
# rolecule: container naming, instance assembly and the Instance lifecycle

A shallow embedding of `pkg/config/config.go` and `pkg/container/instance.go`.

* A Go `string` is a finite sequence of bytes; `str` gives the UTF-8 bytes of a literal.
* `strings.NewReplacer` with one-byte old/new strings is the standard library's byte
  replacer: a 256-entry table applied to every byte.
* Calls to the collaborators (`Engine`, `Provisioner`, `Verifier`, the logger) are the nodes
  of a program tree `Prog`; a `World` answers each call and `Prog.exec` runs a tree against
  a world, returning the result, the final state and the trace of calls made.
-/

namespace Rolecule

/-! ## Go strings -/

/-- A Go string: an immutable sequence of bytes. -/
abbrev GoString := List UInt8

/-- The bytes of a string literal (UTF-8, as in Go source text). -/
def str (s : String) : GoString := s.toUTF8.data.toList

/-- A Go `error` value, identified by what its `Error()` method returns. -/
structure GoError where
  Error : GoString
  deriving DecidableEq, Repr

/-- A Go `map[string]string`, as the list of its entries. -/
abbrev StringMap := List (GoString × GoString)

/-! ## strings.NewReplacer / Replacer.Replace (one-byte pairs) -/

/-- The table of `strings.NewReplacer` when every old and new string is one byte long.
The library starts from the identity table and assigns `r[old] = new` walking the pairs
from the last to the first, so for a repeated `old` the first pair wins. -/
def NewReplacer (oldnew : List (UInt8 × UInt8)) : UInt8 → UInt8 :=
  oldnew.foldr (fun p r => fun b => if b = p.1 then p.2 else r b) id

/-- The method `Replacer.Replace` of a byte replacer: every byte goes through the table. -/
def Replace (r : UInt8 → UInt8) (s : GoString) : GoString :=
  s.map r

/-! ## pkg/config: naming -/

/-- The package variable `AppName` (initialised to "rolecule", assigned nowhere). -/
def AppName : GoString := str "rolecule"

/-- The byte `_`. -/
def underscore : UInt8 := 0x5f
/-- The byte of a space. -/
def space : UInt8 := 0x20
/-- The byte `:`. -/
def colon : UInt8 := 0x3a
/-- The byte `-`. -/
def dash : UInt8 := 0x2d

/-- Go: `generateContainerName(name, roleName string) string`:
`fmt.Sprintf("%s-%s-%s", AppName, roleName, replacer.Replace(name))` with
`replacer := strings.NewReplacer("_", "-", " ", "-", ":", "-")`. -/
def generateContainerName (name roleName : GoString) : GoString :=
  let replacer := NewReplacer [(underscore, dash), (space, dash), (colon, dash)]
  AppName ++ str "-" ++ roleName ++ str "-" ++ Replace replacer name

/-- The normalization of an instance name in the words of the specification:
`_`, space and `:` are replaced with `-`. -/
def normalize (n : GoString) : GoString :=
  n.map (fun b => if b = underscore ∨ b = space ∨ b = colon then dash else b)

/-- A byte that the naming contract calls name-hostile. -/
def hostile (b : UInt8) : Prop := b = underscore ∨ b = space ∨ b = colon

instance (b : UInt8) : Decidable (hostile b) := by unfold hostile; infer_instance

/-- The prefix that `generateContainerName` puts before the instance-name portion. -/
def namePrefix (roleName : GoString) : GoString :=
  AppName ++ str "-" ++ roleName ++ str "-"

/-! ## Calls to the collaborators -/

/-- A call that leaves the two packages: an `Engine` method, `GetCommand` of the
provisioner or of the verifier, or the debug logger. `E`, `P`, `V` are the types of the
engine, provisioner and verifier values an Instance holds. -/
inductive Call (E P V : Type) : Type
  | Run (e : E) (image : GoString) (args : List GoString)
  | Exec (e : E) (name : GoString) (env : StringMap) (cmd : GoString) (args : List GoString)
  | Shell (e : E) (name : GoString)
  | Exists (e : E) (name : GoString)
  | Remove (e : E) (name : GoString)
  | ProvisionerGetCommand (p : P)
  | VerifierGetCommand (v : V)
  | Debugf (format : GoString) (operand : List GoString)

/-- What a call returns to its caller. -/
@[reducible]
def Call.Resp {E P V : Type} : Call E P V → Type
  | .Run _ _ _ => GoString × Option GoError
  | .Exec _ _ _ _ _ => GoString × Option GoError
  | .Shell _ _ => Option GoError
  | .Exists _ _ => Bool
  | .Remove _ _ => Option GoError
  | .ProvisionerGetCommand _ => StringMap × GoString × List GoString
  | .VerifierGetCommand _ => StringMap × GoString × List GoString
  | .Debugf _ _ => Unit

/-- Whether a call is a method of the `Engine` interface. -/
def Call.isEngine {E P V : Type} : Call E P V → Bool
  | .Run _ _ _ => true
  | .Exec _ _ _ _ _ => true
  | .Shell _ _ => true
  | .Exists _ _ => true
  | .Remove _ _ => true
  | _ => false

/-- The image and argument vector of a call when it is `Engine.Run`. -/
def Call.runVector {E P V : Type} : Call E P V → Option (GoString × List GoString)
  | .Run _ image args => some (image, args)
  | _ => none

/-- A method body as the tree of the calls it makes: it either returns, or makes a call
and continues with what the call returned. -/
inductive Prog (E P V : Type) (α : Type) : Type
  | done : α → Prog E P V α
  | call : (c : Call E P V) → (c.Resp → Prog E P V α) → Prog E P V α

/-- The collaborators as seen from the package: each call is answered from a state of
type `σ` (containers running, logs written, ...) and may change it. -/
structure World (E P V : Type) (σ : Type) where
  answer : (c : Call E P V) → σ → c.Resp × σ

/-- The outcome of running a method body: what it returns, the state it leaves and the
calls it made, in order. -/
structure Outcome (E P V : Type) (σ α : Type) where
  result : α
  state : σ
  trace : List (Call E P V)

/-- Runs a method body against a world from a state. -/
def Prog.exec {E P V σ α : Type} (w : World E P V σ) : Prog E P V α → σ → Outcome E P V σ α
  | .done a, s => ⟨a, s, []⟩
  | .call c k, s =>
    let r := w.answer c s
    let o := Prog.exec w (k r.1) r.2
    ⟨o.result, o.state, c :: o.trace⟩

/-! ## pkg/container: Instance -/

/-- Go: `type InstanceConfig struct`. -/
structure InstanceConfig where
  Name : GoString
  Image : GoString
  Arch : GoString
  Args : List GoString
  deriving DecidableEq

/-- Go: `type Instance struct`, with the embedded `Engine` as the field `Engine`. -/
structure Instance (E P V : Type) where
  Name : GoString
  Image : GoString
  Args : List GoString
  Arch : GoString
  WorkDir : GoString
  Engine : E
  Provisioner : P
  Verifier : V
  deriving DecidableEq

/-- Go: `type Instances []Instance`. -/
abbrev Instances (E P V : Type) := List (Instance E P V)

/-- Go: `func (i *Instance) Create() (string, error)`. -/
def Instance.Create {E P V : Type} (i : Instance E P V) :
    Prog E P V (GoString × Option GoError) :=
  let workDir := str "/src"
  let instanceArgs : List GoString := [
    str "run",
    str "--privileged",
    str "--rm",
    str "--detach",
    str "--tmpfs", str "/tmp",
    str "--tmpfs", str "/run",
    str "--tmpfs", str "/run/lock",
    str "--tmpfs", str "/var/lib/docker",
    str "--cgroupns", str "host",
    str "--volume", str "/sys/fs/cgroup:/sys/fs/cgroup:rw",
    str "--volume", i.WorkDir ++ str ":" ++ workDir,
    str "--workdir", workDir]
  let instanceArgs :=
    if i.Arch ≠ [] then instanceArgs ++ [str "--platform", str "linux/" ++ i.Arch]
    else instanceArgs
  let instanceArgs := instanceArgs ++ [str "--name", i.Name]
  let args := instanceArgs ++ i.Args
  .call (.Debugf (str "%+v") args) fun _ =>
  .call (.Run i.Engine i.Image args) fun r =>
    match r.2 with
    | some err => .done (r.1, some err)
    | none => .done (r.1, none)

/-- Go: `func (i *Instance) Converge() (string, error)`. -/
def Instance.Converge {E P V : Type} (i : Instance E P V) :
    Prog E P V (GoString × Option GoError) :=
  .call (.ProvisionerGetCommand i.Provisioner) fun g =>
  .call (.Exec i.Engine i.Name g.1 g.2.1 g.2.2) fun r =>
  .done r

/-- Go: `func (i *Instance) Verify() (string, error)`. -/
def Instance.Verify {E P V : Type} (i : Instance E P V) :
    Prog E P V (GoString × Option GoError) :=
  .call (.VerifierGetCommand i.Verifier) fun g =>
  .call (.Exec i.Engine i.Name g.1 g.2.1 g.2.2) fun r =>
  .done r

/-- Go: `func (i *Instance) Shell() error`. -/
def Instance.Shell {E P V : Type} (i : Instance E P V) : Prog E P V (Option GoError) :=
  .call (.Shell i.Engine i.Name) fun r => .done r

/-- Go: `func (i *Instance) Exists() bool`. -/
def Instance.Exists {E P V : Type} (i : Instance E P V) : Prog E P V Bool :=
  .call (.Exists i.Engine i.Name) fun r => .done r

/-- Go: `func (i *Instance) Destroy() error`. -/
def Instance.Destroy {E P V : Type} (i : Instance E P V) : Prog E P V (Option GoError) :=
  .call (.Remove i.Engine i.Name) fun r => .done r

/-! ## pkg/config: Get -/

/-- Go: `container.EngineConfig`, of which `Get` reads the field `Name`. -/
structure EngineConfig where
  Name : GoString
  deriving DecidableEq

/-- Go: `type configFile struct`; `PC` and `VC` stand for `provisioner.Config` and
`verifier.Config`. -/
structure configFile (PC VC : Type) where
  Engine : EngineConfig
  Containers : List InstanceConfig
  Provisioner : PC
  Verifier : VC

/-- Go: `type Config struct`. -/
structure Config (E P V : Type) where
  WorkDir : GoString
  RoleName : GoString
  Instances : Instances E P V
  EngineName : GoString
  Provisioner : P
  Verifier : V
  Engine : E

/-- An error of `viper.ReadInConfig`, with the outcome of the type assertion
`err.(viper.ConfigFileNotFoundError)`. -/
structure ReadError where
  err : GoError
  isConfigFileNotFound : Bool

/-- What `Get` obtains from outside the package: the configuration file as viper reads and
decodes it, the constructors of the three collaborators, the current directory, and the
platform's `filepath.EvalSymlinks` and `filepath.Base`. -/
structure Env (E P V PC VC : Type) where
  ReadInConfig : Option ReadError
  Unmarshal : Except GoError (configFile PC VC)
  NewEngine : GoString → Except GoError E
  NewProvisioner : PC → Except GoError P
  NewVerifier : VC → Except GoError V
  Getwd : Except GoError GoString
  EvalSymlinks : GoString → Except GoError GoString
  Base : GoString → GoString

/-- How a call of `Get` ends: `log.Fatalf` ends the process with a message, or `Get`
returns `(nil, err)` or `(&Config, nil)`. -/
inductive GetResult (E P V : Type) : Type
  | fatal (msg : GoString)
  | returned (r : Except GoError (Config E P V))

/-- Go: `func Get() (*Config, error)`. -/
def Get {E P V PC VC : Type} (env : Env E P V PC VC) : GetResult E P V :=
  match env.ReadInConfig with
  | some e =>
    if e.isConfigFileNotFound then
      .fatal (str "config file not found: " ++ AppName ++ str ".yml")
    else
      .fatal (str "config file not valid: " ++ e.err.Error)
  | none =>
    match env.Unmarshal with
    | .error err =>
      .returned (.error ⟨str "unable to decode config file into struct, " ++ err.Error⟩)
    | .ok configValues =>
      match env.NewEngine configValues.Engine.Name with
      | .error err => .returned (.error err)
      | .ok engine =>
        match env.NewProvisioner configValues.Provisioner with
        | .error err => .returned (.error err)
        | .ok provisioner =>
          match env.NewVerifier configValues.Verifier with
          | .error err => .returned (.error err)
          | .ok verifier =>
            match env.Getwd with
            | .error err => .returned (.error err)
            | .ok cwd =>
              match env.EvalSymlinks cwd with
              | .error err => .returned (.error err)
              | .ok cwdNoSymlinks =>
                let roleName := env.Base cwd
                let instances : Instances E P V :=
                  configValues.Containers.foldl
                    (fun instances i =>
                      let instanceConfig : Instance E P V := {
                        Name := generateContainerName i.Name roleName
                        Image := i.Image
                        Arch := i.Arch
                        Args := i.Args
                        WorkDir := cwdNoSymlinks
                        Engine := engine
                        Provisioner := provisioner
                        Verifier := verifier }
                      instances ++ [instanceConfig])
                    []
                .returned (.ok {
                  RoleName := roleName
                  WorkDir := cwd
                  Provisioner := provisioner
                  Verifier := verifier
                  Engine := engine
                  Instances := instances
                  EngineName := [] })

/-! ## Example environment -/

/-- The byte `/`. -/
def slash : UInt8 := 0x2f

/-- Go (Unix): `filepath.Base`: the last element of a path, after removing trailing
slashes; "." for the empty path and "/" for a path of slashes only. -/
def filepathBase (path : GoString) : GoString :=
  if path = [] then str "."
  else
    let path := (path.reverse.dropWhile (fun b => b = slash)).reverse
    let path := (path.reverse.takeWhile (fun b => b ≠ slash)).reverse
    if path = [] then str "/" else path

/-- An environment: a role in the directory `/home/dev/my_role` (no symbolic links) whose
configuration file declares one container, `web`. -/
def exampleEnv : Env Unit Unit Unit Unit Unit where
  ReadInConfig := none
  Unmarshal := .ok {
    Engine := ⟨str "docker"⟩
    Containers := [⟨str "web", str "ubuntu:22.04", [], []⟩]
    Provisioner := ()
    Verifier := () }
  NewEngine := fun _ => .ok ()
  NewProvisioner := fun _ => .ok ()
  NewVerifier := fun _ => .ok ()
  Getwd := .ok (str "/home/dev/my_role")
  EvalSymlinks := fun p => .ok p
  Base := filepathBase

/-- The configuration file of the second example: two containers with `_`, space and `:`
in their names. -/
def plainFile : configFile Unit Unit where
  Engine := ⟨str "podman"⟩
  Containers := [⟨str "web_1", str "ubuntu:22.04", str "amd64", []⟩,
    ⟨str "db 2:a", str "debian:12", [], [str "--memory", str "1g"]⟩]
  Provisioner := ()
  Verifier := ()

/-- An environment: a role in the directory `/srv/roles/myrole`, reached through a
symbolic link from `/home/dev/myrole`, with the configuration file `plainFile`. -/
def plainEnv : Env Unit Unit Unit Unit Unit where
  ReadInConfig := none
  Unmarshal := .ok plainFile
  NewEngine := fun _ => .ok ()
  NewProvisioner := fun _ => .ok ()
  NewVerifier := fun _ => .ok ()
  Getwd := .ok (str "/home/dev/myrole")
  EvalSymlinks := fun _ => .ok (str "/srv/roles/myrole")
  Base := filepathBase

/-- The configuration file of the third example: three containers that differ in image,
architecture and run arguments, a provisioner and a verifier given by name. -/
def linkedFile : configFile GoString GoString where
  Engine := ⟨str "podman"⟩
  Containers := [
    ⟨str "web_1", str "ubuntu:22.04", str "amd64", [str "--memory", str "1g"]⟩,
    ⟨str "db 2:a", str "debian:12", [], []⟩,
    ⟨str "cache", str "rockylinux:9", str "arm64", [str "--hostname", str "cache"]⟩]
  Provisioner := str "ansible"
  Verifier := str "goss"

/-- An environment in which every collaborator is told apart by its name: the role lives
in `/srv/roles/myrole`, reached through a symbolic link from `/home/dev/myrole`, and the
configuration file is `linkedFile`. -/
def linkedEnv : Env GoString GoString GoString GoString GoString where
  ReadInConfig := none
  Unmarshal := .ok linkedFile
  NewEngine := fun name => .ok (str "engine:" ++ name)
  NewProvisioner := fun c => .ok (str "provisioner:" ++ c)
  NewVerifier := fun c => .ok (str "verifier:" ++ c)
  Getwd := .ok (str "/home/dev/myrole")
  EvalSymlinks := fun p =>
    if p = str "/home/dev/myrole" then .ok (str "/srv/roles/myrole") else .ok p
  Base := filepathBase

/-- The Instances `Get` is to build in `linkedEnv`, written out. -/
def linkedInstances : Instances GoString GoString GoString := [
  { Name := str "rolecule-myrole-web-1"
    Image := str "ubuntu:22.04"
    Args := [str "--memory", str "1g"]
    Arch := str "amd64"
    WorkDir := str "/srv/roles/myrole"
    Engine := str "engine:podman"
    Provisioner := str "provisioner:ansible"
    Verifier := str "verifier:goss" },
  { Name := str "rolecule-myrole-db-2-a"
    Image := str "debian:12"
    Args := []
    Arch := []
    WorkDir := str "/srv/roles/myrole"
    Engine := str "engine:podman"
    Provisioner := str "provisioner:ansible"
    Verifier := str "verifier:goss" },
  { Name := str "rolecule-myrole-cache"
    Image := str "rockylinux:9"
    Args := [str "--hostname", str "cache"]
    Arch := str "arm64"
    WorkDir := str "/srv/roles/myrole"
    Engine := str "engine:podman"
    Provisioner := str "provisioner:ansible"
    Verifier := str "verifier:goss" }]

/-- An instance of the example role, as `Get` builds it, pinned to `amd64`. -/
def exampleInstance : Instance Unit Unit Unit where
  Name := str "rolecule-myrole-web"
  Image := str "ubuntu:22.04"
  Args := [str "--memory", str "1g"]
  Arch := str "amd64"
  WorkDir := str "/home/dev/myrole"
  Engine := ()
  Provisioner := ()
  Verifier := ()

/-- The same instance without a pinned architecture. -/
def exampleInstanceNoArch : Instance Unit Unit Unit :=
  { exampleInstance with Arch := [] }

/-- A world whose state counts the calls answered so far: `Run` prints a container id,
`Exec` fails with exit status 1 on its first use in a fresh world and succeeds later,
the provisioner runs `ansible-playbook` and the verifier runs `goss`. -/
def exampleWorld : World Unit Unit Unit Nat where
  answer := fun c n =>
    match c with
    | .Run _ _ _ => ((str "4f1c2a9be0d3", none), n + 1)
    | .Exec _ _ _ _ _ =>
      (if n ≤ 1 then (str "FAILED", some ⟨str "exit status 1"⟩) else (str "ok", none), n + 1)
    | .Shell _ _ => (none, n + 1)
    | .Exists _ _ => (false, n + 1)
    | .Remove _ _ => (none, n + 1)
    | .ProvisionerGetCommand _ =>
      (([(str "ANSIBLE_FORCE_COLOR", str "1")], str "ansible-playbook", [str "playbook.yml"]),
        n + 1)
    | .VerifierGetCommand _ => (([], str "goss", [str "validate"]), n + 1)
    | .Debugf _ _ => ((), n + 1)

/-! ## The argument vector in the words of the specification -/

/-- The base flags `B` of the run vector for a host working directory. -/
def baseFlags (WorkDir : GoString) : List GoString :=
  [str "run", str "--privileged", str "--rm", str "--detach",
   str "--tmpfs", str "/tmp", str "--tmpfs", str "/run", str "--tmpfs", str "/run/lock",
   str "--tmpfs", str "/var/lib/docker", str "--cgroupns", str "host",
   str "--volume", str "/sys/fs/cgroup:/sys/fs/cgroup:rw",
   str "--volume", WorkDir ++ str ":/src", str "--workdir", str "/src"]

/-- The platform flags `P`: none for an empty `Arch`, else `--platform linux/<Arch>`. -/
def platformFlags (Arch : GoString) : List GoString :=
  if Arch = [] then [] else [str "--platform", str "linux/" ++ Arch]

/-- The flags `Create` generates: base flags, platform flags, then the name flag. -/
def generatedFlags {E P V : Type} (i : Instance E P V) : List GoString :=
  baseFlags i.WorkDir ++ platformFlags i.Arch ++ [str "--name", i.Name]

/-! ## Naming: proofs -/

theorem NewReplacer_hostile (b : UInt8) :
    NewReplacer [(underscore, dash), (space, dash), (colon, dash)] b =
      if b = underscore ∨ b = space ∨ b = colon then dash else b := by
  simp only [NewReplacer, List.foldr, id]
  by_cases h1 : b = underscore
  · simp [h1]
  · by_cases h2 : b = space
    · simp [h1, h2]
    · by_cases h3 : b = colon
      · simp [h1, h2, h3]
      · simp [h1, h2, h3]

theorem Replace_eq_normalize (n : GoString) :
    Replace (NewReplacer [(underscore, dash), (space, dash), (colon, dash)]) n = normalize n := by
  unfold Replace normalize
  exact List.map_congr_left (fun b _ => NewReplacer_hostile b)

theorem generateContainerName_split (n r : GoString) :
    generateContainerName n r = namePrefix r ++ normalize n := by
  simp only [generateContainerName, namePrefix, Replace_eq_normalize]

theorem normalize_length (n : GoString) : (normalize n).length = n.length := by
  simp [normalize]

theorem normalize_getElem? (n : GoString) (k : Nat) :
    (normalize n)[k]? = (n[k]?).map (fun b => if hostile b then dash else b) := by
  simp [normalize, hostile]

theorem normalize_not_hostile (n : GoString) : ∀ b ∈ normalize n, ¬ hostile b := by
  intro b hb
  simp only [normalize, List.mem_map] at hb
  obtain ⟨a, _, rfl⟩ := hb
  by_cases h : a = underscore ∨ a = space ∨ a = colon
  · rw [if_pos h]; decide
  · rw [if_neg h]; exact h

/-- C4: the instance-name portion of `generateContainerName n r`, what follows the prefix
`AppName-r-`, has the length of `n` and at every position holds `-` where `n` has `_`,
space or `:` and the byte of `n` otherwise. -/
theorem generateContainerName_portion (n r : GoString) :
    generateContainerName n r =
        namePrefix r ++ (generateContainerName n r).drop (namePrefix r).length ∧
      ((generateContainerName n r).drop (namePrefix r).length).length = n.length ∧
      ∀ k : Nat, ((generateContainerName n r).drop (namePrefix r).length)[k]? =
        (n[k]?).map (fun b => if hostile b then dash else b) := by
  have hd : (generateContainerName n r).drop (namePrefix r).length = normalize n := by
    rw [generateContainerName_split, List.drop_left]
  rw [hd]
  exact ⟨generateContainerName_split n r, normalize_length n, normalize_getElem? n⟩

/-- C5: `generateContainerName n r` is `AppName`, `-`, `r`, `-` and the normalized `n`
joined; `AppName` is "rolecule", and for the instance `web` of the role `myrole` the
name is "rolecule-myrole-web". -/
theorem generateContainerName_format (n r : GoString) :
    generateContainerName n r = AppName ++ str "-" ++ r ++ str "-" ++ normalize n ∧
      AppName = str "rolecule" ∧
      generateContainerName (str "web") (str "myrole") = str "rolecule-myrole-web" := by
  refine ⟨?_, rfl, by decide⟩
  rw [generateContainerName_split, namePrefix]

/-- C7: for one role name, two instance names get the same container name exactly when
they are equal after normalization. -/
theorem generateContainerName_collide_iff (a b r : GoString) :
    generateContainerName a r = generateContainerName b r ↔ normalize a = normalize b := by
  rw [generateContainerName_split, generateContainerName_split]
  exact List.append_right_inj (namePrefix r)

/-! ## Create: proofs -/

theorem str_platform :
    str "--platform" = [0x2d, 0x2d, 0x70, 0x6c, 0x61, 0x74, 0x66, 0x6f, 0x72, 0x6d] := by
  decide

theorem workDir_mount_ne_platform (wd : GoString) : wd ++ str ":/src" ≠ str "--platform" := by
  intro h
  have h1 : str ":/src" = [0x3a, 0x2f, 0x73, 0x72, 0x63] := by decide
  rw [h1, str_platform] at h
  have h2 := congrArg List.getLast? h
  simp at h2

theorem linux_arch_ne_platform (arch : GoString) :
    str "linux/" ++ arch ≠ str "--platform" := by
  intro h
  have h1 : str "linux/" = [0x6c, 0x69, 0x6e, 0x75, 0x78, 0x2f] := by decide
  rw [h1, str_platform] at h
  have h2 := congrArg List.head? h
  simp at h2

theorem platform_not_mem_baseFlags (wd : GoString) : str "--platform" ∉ baseFlags wd := by
  intro h
  simp only [baseFlags, List.mem_cons, List.mem_singleton, List.not_mem_nil, or_false] at h
  have hw := workDir_mount_ne_platform wd
  rcases h with h | h | h | h | h | h | h | h | h | h | h | h | h | h | h | h | h | h | h | h
  all_goals first
    | exact hw h.symm
    | exact absurd h (by decide)

theorem Create_vector_eq {E P V : Type} (i : Instance E P V) :
    (if i.Arch ≠ [] then
        [str "run", str "--privileged", str "--rm", str "--detach",
          str "--tmpfs", str "/tmp", str "--tmpfs", str "/run", str "--tmpfs", str "/run/lock",
          str "--tmpfs", str "/var/lib/docker", str "--cgroupns", str "host",
          str "--volume", str "/sys/fs/cgroup:/sys/fs/cgroup:rw",
          str "--volume", i.WorkDir ++ str ":" ++ str "/src", str "--workdir", str "/src"] ++
          [str "--platform", str "linux/" ++ i.Arch]
      else
        [str "run", str "--privileged", str "--rm", str "--detach",
          str "--tmpfs", str "/tmp", str "--tmpfs", str "/run", str "--tmpfs", str "/run/lock",
          str "--tmpfs", str "/var/lib/docker", str "--cgroupns", str "host",
          str "--volume", str "/sys/fs/cgroup:/sys/fs/cgroup:rw",
          str "--volume", i.WorkDir ++ str ":" ++ str "/src", str "--workdir", str "/src"]) ++
        [str "--name", i.Name] ++ i.Args =
      generatedFlags i ++ i.Args := by
  have h1 : i.WorkDir ++ str ":" ++ str "/src" = i.WorkDir ++ str ":/src" := by
    rw [List.append_assoc]
    congr 1
  rw [h1]
  unfold generatedFlags platformFlags baseFlags
  by_cases h : i.Arch = []
  · simp [h]
  · simp [h]

theorem Create_exec {E P V σ : Type} (w : World E P V σ) (s : σ) (i : Instance E P V) :
    i.Create.exec w s =
      ⟨(w.answer (.Run i.Engine i.Image (generatedFlags i ++ i.Args))
          (w.answer (.Debugf (str "%+v") (generatedFlags i ++ i.Args)) s).2).1,
        (w.answer (.Run i.Engine i.Image (generatedFlags i ++ i.Args))
          (w.answer (.Debugf (str "%+v") (generatedFlags i ++ i.Args)) s).2).2,
        [.Debugf (str "%+v") (generatedFlags i ++ i.Args),
          .Run i.Engine i.Image (generatedFlags i ++ i.Args)]⟩ := by
  unfold Instance.Create
  dsimp only
  rw [Create_vector_eq]
  generalize generatedFlags i ++ i.Args = args
  simp only [Prog.exec]
  generalize (w.answer (.Run i.Engine i.Image args)
    (w.answer (.Debugf (str "%+v") args) s).2) = a
  obtain ⟨⟨out, err⟩, s2⟩ := a
  cases err <;> rfl

theorem generatedFlags_take {E P V : Type} (i : Instance E P V) :
    (generatedFlags i ++ i.Args).take ((generatedFlags i ++ i.Args).length - i.Args.length) =
      generatedFlags i := by
  rw [List.length_append, Nat.add_sub_cancel, List.take_left]

/-- C1: `Create` makes one engine call, `Run`, with the image of the instance and the
vector `B ++ P ++ ["--name", Name] ++ Args`, after logging that vector, and returns the
pair `Run` returned; the user's `Args` are the tail of the vector, in order, after every
generated flag. -/
theorem Create_runs_assembled_vector {E P V σ : Type} (w : World E P V σ) (s : σ)
    (i : Instance E P V) :
    ∃ args : List GoString,
      args = baseFlags i.WorkDir ++ platformFlags i.Arch ++ [str "--name", i.Name] ++ i.Args ∧
      (i.Create.exec w s).trace = [.Debugf (str "%+v") args, .Run i.Engine i.Image args] ∧
      (i.Create.exec w s).trace.filter Call.isEngine = [.Run i.Engine i.Image args] ∧
      (i.Create.exec w s).result =
        (w.answer (.Run i.Engine i.Image args) (w.answer (.Debugf (str "%+v") args) s).2).1 ∧
      i.Args <:+ args ∧
      args.drop (args.length - i.Args.length) = i.Args ∧
      args.take (args.length - i.Args.length) =
        baseFlags i.WorkDir ++ platformFlags i.Arch ++ [str "--name", i.Name] := by
  refine ⟨generatedFlags i ++ i.Args, rfl, ?_, ?_, ?_, ?_, ?_, ?_⟩
  · rw [Create_exec]
  · rw [Create_exec]; rfl
  · rw [Create_exec]
  · exact List.suffix_append _ _
  · rw [List.length_append, Nat.add_sub_cancel, List.drop_left]
  · exact generatedFlags_take i

/-- C2: with an empty `Arch` and a `Name` other than "--platform", `Create` calls `Run`
with a vector none of whose generated flags (the elements before the user's `Args`) is
"--platform". -/
theorem Create_no_platform_flag {E P V σ : Type} (w : World E P V σ) (s : σ)
    (i : Instance E P V) (hArch : i.Arch = []) (hName : i.Name ≠ str "--platform") :
    ∃ args : List GoString,
      (i.Create.exec w s).trace.filterMap Call.runVector = [(i.Image, args)] ∧
      ∀ x ∈ args.take (args.length - i.Args.length), x ≠ str "--platform" := by
  refine ⟨generatedFlags i ++ i.Args, ?_, ?_⟩
  · rw [Create_exec]; rfl
  · rw [generatedFlags_take]
    intro x hx hxp
    subst hxp
    simp only [generatedFlags, platformFlags, hArch, if_true, List.append_nil, List.mem_append,
      List.mem_cons, List.mem_singleton, List.not_mem_nil, or_false] at hx
    rcases hx with hx | hx | hx
    · exact platform_not_mem_baseFlags _ hx
    · exact absurd hx (by decide)
    · exact hName hx.symm

theorem Create_no_platform_flag_witness :
    ∃ args : List GoString,
      (exampleInstanceNoArch.Create.exec exampleWorld 0).trace.filterMap Call.runVector =
        [(exampleInstanceNoArch.Image, args)] ∧
      ∀ x ∈ args.take (args.length - exampleInstanceNoArch.Args.length),
        x ≠ str "--platform" :=
  Create_no_platform_flag exampleWorld 0 exampleInstanceNoArch rfl (by decide)

/-- C3: with a non-empty `Arch` and a `Name` other than "--platform", the generated flags
of the vector `Create` passes to `Run` are the base flags, then "--platform" and
"linux/" followed by `Arch`, then "--name" and the name; "--platform" occurs once among
them. -/
theorem Create_one_platform_flag {E P V σ : Type} (w : World E P V σ) (s : σ)
    (i : Instance E P V) (hArch : i.Arch ≠ []) (hName : i.Name ≠ str "--platform") :
    ∃ args : List GoString,
      (i.Create.exec w s).trace.filterMap Call.runVector = [(i.Image, args)] ∧
      args.take (args.length - i.Args.length) =
        baseFlags i.WorkDir ++
          [str "--platform", str "linux/" ++ i.Arch, str "--name", i.Name] ∧
      (args.take (args.length - i.Args.length)).count (str "--platform") = 1 ∧
      str "--platform" ∉ baseFlags i.WorkDir ∧
      (i.Arch = str "amd64" → str "linux/" ++ i.Arch = str "linux/amd64") := by
  have hg : generatedFlags i =
      baseFlags i.WorkDir ++
        [str "--platform", str "linux/" ++ i.Arch, str "--name", i.Name] := by
    simp [generatedFlags, platformFlags, hArch]
  refine ⟨generatedFlags i ++ i.Args, ?_, ?_, ?_, platform_not_mem_baseFlags _, ?_⟩
  · rw [Create_exec]; rfl
  · rw [generatedFlags_take, hg]
  · rw [generatedFlags_take, hg, List.count_append,
      List.count_eq_zero_of_not_mem (platform_not_mem_baseFlags _)]
    have h1 : (str "linux/" ++ i.Arch == str "--platform") = false :=
      beq_false_of_ne (linux_arch_ne_platform _)
    have h2 : (str "--name" == str "--platform") = false := by decide
    have h3 : (i.Name == str "--platform") = false := beq_false_of_ne hName
    simp [List.count_cons, h1, h2, h3]
  · intro h
    rw [h]
    decide

theorem Create_one_platform_flag_witness :
    ∃ args : List GoString,
      (exampleInstance.Create.exec exampleWorld 0).trace.filterMap Call.runVector =
        [(exampleInstance.Image, args)] ∧
      args.take (args.length - exampleInstance.Args.length) =
        baseFlags exampleInstance.WorkDir ++
          [str "--platform", str "linux/" ++ exampleInstance.Arch, str "--name",
            exampleInstance.Name] ∧
      (args.take (args.length - exampleInstance.Args.length)).count (str "--platform") = 1 ∧
      str "--platform" ∉ baseFlags exampleInstance.WorkDir ∧
      (exampleInstance.Arch = str "amd64" →
        str "linux/" ++ exampleInstance.Arch = str "linux/amd64") :=
  Create_one_platform_flag exampleWorld 0 exampleInstance (by decide) (by decide)

/-! ## Converge and Verify: proofs -/

/-- C8: `Converge` asks the provisioner for `(env, cmd, args)`, makes one engine call,
`Exec` with the name of the instance and that command unchanged, and returns the pair
`Exec` returned, so a failure of `Exec` comes back with the same output and error; there
is no second `Exec` and no `Run` or `Remove`. -/
theorem Converge_delegates_to_Exec {E P V σ : Type} (w : World E P V σ) (s : σ)
    (i : Instance E P V) :
    ∃ (g : StringMap × GoString × List GoString) (s1 : σ)
      (r : GoString × Option GoError) (s2 : σ),
      w.answer (.ProvisionerGetCommand i.Provisioner) s = (g, s1) ∧
      w.answer (.Exec i.Engine i.Name g.1 g.2.1 g.2.2) s1 = (r, s2) ∧
      (i.Converge.exec w s).trace =
        [.ProvisionerGetCommand i.Provisioner, .Exec i.Engine i.Name g.1 g.2.1 g.2.2] ∧
      (i.Converge.exec w s).trace.filter Call.isEngine =
        [.Exec i.Engine i.Name g.1 g.2.1 g.2.2] ∧
      (i.Converge.exec w s).result = r ∧
      (i.Converge.exec w s).state = s2 ∧
      ∀ err : GoError, r.2 = some err →
        (i.Converge.exec w s).result.2 = some err ∧ (i.Converge.exec w s).result.1 = r.1 := by
  refine ⟨(w.answer (.ProvisionerGetCommand i.Provisioner) s).1,
    (w.answer (.ProvisionerGetCommand i.Provisioner) s).2, _, _, rfl, rfl, rfl, rfl, rfl, rfl,
    fun err h => ⟨h, rfl⟩⟩

/-- C9: `Verify` asks the verifier, not the provisioner, for `(env, cmd, args)`, makes one
engine call, `Exec` with the name of the instance and that command, and returns the pair
`Exec` returned; so of two runs in which `Exec` returns different pairs, `Verify` returns
different pairs too. -/
theorem Verify_delegates_to_Exec {E P V σ : Type} (w w' : World E P V σ) (s s' : σ)
    (i : Instance E P V) :
    ∃ (g g' : StringMap × GoString × List GoString) (s1 s1' : σ)
      (r r' : GoString × Option GoError) (s2 s2' : σ),
      w.answer (.VerifierGetCommand i.Verifier) s = (g, s1) ∧
      w.answer (.Exec i.Engine i.Name g.1 g.2.1 g.2.2) s1 = (r, s2) ∧
      w'.answer (.VerifierGetCommand i.Verifier) s' = (g', s1') ∧
      w'.answer (.Exec i.Engine i.Name g'.1 g'.2.1 g'.2.2) s1' = (r', s2') ∧
      (i.Verify.exec w s).trace =
        [.VerifierGetCommand i.Verifier, .Exec i.Engine i.Name g.1 g.2.1 g.2.2] ∧
      (i.Verify.exec w s).trace.filter Call.isEngine =
        [.Exec i.Engine i.Name g.1 g.2.1 g.2.2] ∧
      (i.Verify.exec w s).result = r ∧
      (i.Verify.exec w' s').result = r' ∧
      (r ≠ r' → (i.Verify.exec w s).result ≠ (i.Verify.exec w' s').result) := by
  refine ⟨(w.answer (.VerifierGetCommand i.Verifier) s).1,
    (w'.answer (.VerifierGetCommand i.Verifier) s').1,
    (w.answer (.VerifierGetCommand i.Verifier) s).2,
    (w'.answer (.VerifierGetCommand i.Verifier) s').2, _, _, _, _,
    rfl, rfl, rfl, rfl, rfl, rfl, rfl, rfl, fun h => h⟩

/-! ## Get: proofs -/

theorem foldl_append_singleton {α β : Type} (f : α → β) (l : List α) (init : List β) :
    l.foldl (fun acc a => acc ++ [f a]) init = init ++ l.map f := by
  induction l generalizing init with
  | nil => simp
  | cons a l ih => simp [ih]

theorem Get_ok {E P V PC VC : Type} (env : Env E P V PC VC) (cf : configFile PC VC)
    (engine : E) (provisioner : P) (verifier : V) (cwd cwdNoSymlinks : GoString)
    (hRead : env.ReadInConfig = none) (hDecode : env.Unmarshal = .ok cf)
    (hEngine : env.NewEngine cf.Engine.Name = .ok engine)
    (hProv : env.NewProvisioner cf.Provisioner = .ok provisioner)
    (hVer : env.NewVerifier cf.Verifier = .ok verifier)
    (hCwd : env.Getwd = .ok cwd) (hSym : env.EvalSymlinks cwd = .ok cwdNoSymlinks) :
    Get env = .returned (.ok {
      RoleName := env.Base cwd
      WorkDir := cwd
      Provisioner := provisioner
      Verifier := verifier
      Engine := engine
      Instances := cf.Containers.map (fun c => {
        Name := generateContainerName c.Name (env.Base cwd)
        Image := c.Image
        Arch := c.Arch
        Args := c.Args
        WorkDir := cwdNoSymlinks
        Engine := engine
        Provisioner := provisioner
        Verifier := verifier })
      EngineName := [] }) := by
  unfold Get
  simp only [hRead, hDecode, hEngine, hProv, hVer, hCwd, hSym]
  rw [foldl_append_singleton (fun c : InstanceConfig => ({
        Name := generateContainerName c.Name (env.Base cwd)
        Image := c.Image
        Arch := c.Arch
        Args := c.Args
        WorkDir := cwdNoSymlinks
        Engine := engine
        Provisioner := provisioner
        Verifier := verifier } : Instance E P V))]
  rfl

theorem AppName_not_hostile : ∀ b ∈ AppName, ¬ hostile b := by decide

theorem namePrefix_not_hostile (r : GoString) (hr : ∀ b ∈ r, ¬ hostile b) :
    ∀ b ∈ namePrefix r, ¬ hostile b := by
  have hd : ∀ b ∈ str "-", ¬ hostile b := by decide
  intro b hb
  simp only [namePrefix, List.mem_append] at hb
  rcases hb with ((hb | hb) | hb) | hb
  · exact AppName_not_hostile b hb
  · exact hd b hb
  · exact hr b hb
  · exact hd b hb

/-- C10: when the file is read and decoded and the collaborators and directories resolve,
`Get` returns a Config whose Instances have the length and order of the configured
containers: the k-th Instance has the name `generateContainerName` derives from the k-th
container and the role name, its Image, Arch and Args, the symlink-resolved working
directory, and the one engine, provisioner and verifier. -/
theorem Get_instances_follow_containers {E P V PC VC : Type} (env : Env E P V PC VC)
    (cf : configFile PC VC) (engine : E) (provisioner : P) (verifier : V)
    (cwd cwdNoSymlinks : GoString)
    (hRead : env.ReadInConfig = none) (hDecode : env.Unmarshal = .ok cf)
    (hEngine : env.NewEngine cf.Engine.Name = .ok engine)
    (hProv : env.NewProvisioner cf.Provisioner = .ok provisioner)
    (hVer : env.NewVerifier cf.Verifier = .ok verifier)
    (hCwd : env.Getwd = .ok cwd) (hSym : env.EvalSymlinks cwd = .ok cwdNoSymlinks) :
    ∃ cfg : Config E P V,
      Get env = .returned (.ok cfg) ∧
      cfg.Instances.length = cf.Containers.length ∧
      ∀ k : Nat, cfg.Instances[k]? = (cf.Containers[k]?).map (fun c => {
        Name := generateContainerName c.Name (env.Base cwd)
        Image := c.Image
        Arch := c.Arch
        Args := c.Args
        WorkDir := cwdNoSymlinks
        Engine := engine
        Provisioner := provisioner
        Verifier := verifier }) := by
  refine ⟨_, Get_ok env cf engine provisioner verifier cwd cwdNoSymlinks hRead hDecode hEngine
    hProv hVer hCwd hSym, ?_, ?_⟩
  · simp
  · intro k
    simp

theorem Get_instances_follow_containers_witness :
    ∃ cfg : Config GoString GoString GoString,
      Get linkedEnv = .returned (.ok cfg) ∧
      cfg.Instances.length = linkedFile.Containers.length ∧
      (∀ k : Nat, cfg.Instances[k]? = (linkedFile.Containers[k]?).map (fun c => {
        Name := generateContainerName c.Name (linkedEnv.Base (str "/home/dev/myrole"))
        Image := c.Image
        Arch := c.Arch
        Args := c.Args
        WorkDir := str "/srv/roles/myrole"
        Engine := str "engine:podman"
        Provisioner := str "provisioner:ansible"
        Verifier := str "verifier:goss" })) ∧
      cfg.Instances = linkedInstances := by
  obtain ⟨cfg, hGet, hLen, hAt⟩ :=
    Get_instances_follow_containers linkedEnv linkedFile (str "engine:podman")
      (str "provisioner:ansible") (str "verifier:goss") (str "/home/dev/myrole")
      (str "/srv/roles/myrole") rfl rfl
      (congrArg Except.ok (by decide : str "engine:" ++ str "podman" = str "engine:podman"))
      (congrArg Except.ok
        (by decide : str "provisioner:" ++ str "ansible" = str "provisioner:ansible"))
      (congrArg Except.ok (by decide : str "verifier:" ++ str "goss" = str "verifier:goss"))
      rfl (by simp [linkedEnv])
  refine ⟨cfg, hGet, hLen, hAt, ?_⟩
  have hMap : linkedFile.Containers.map (fun c => ({
      Name := generateContainerName c.Name (linkedEnv.Base (str "/home/dev/myrole"))
      Image := c.Image
      Arch := c.Arch
      Args := c.Args
      WorkDir := str "/srv/roles/myrole"
      Engine := str "engine:podman"
      Provisioner := str "provisioner:ansible"
      Verifier := str "verifier:goss" } : Instance GoString GoString GoString)) =
      linkedInstances := by decide
  apply List.ext_getElem?
  intro k
  rw [hAt k, ← hMap, List.getElem?_map]

/-- C6, as stated, fails: for the role directory `/home/dev/my_role` and the container
`web`, `Get` builds one Instance, named "rolecule-my_role-web", and that name contains
`_`. -/
theorem Get_name_keeps_role_underscore :
    ∃ cfg : Config Unit Unit Unit,
      Get exampleEnv = .returned (.ok cfg) ∧
      cfg.Instances.map (fun i => i.Name) = [str "rolecule-my_role-web"] ∧
      ∃ i ∈ cfg.Instances, ∃ b ∈ i.Name, hostile b := by
  refine ⟨_, Get_ok exampleEnv
    { Engine := ⟨str "docker"⟩
      Containers := [⟨str "web", str "ubuntu:22.04", [], []⟩]
      Provisioner := ()
      Verifier := () }
    () () () (str "/home/dev/my_role") (str "/home/dev/my_role") rfl rfl rfl rfl rfl rfl rfl,
    by decide, ?_⟩
  refine ⟨_, List.mem_singleton_self _, underscore, ?_, Or.inl rfl⟩
  decide

/-- C6, amended: every Instance `Get` builds is named by the prefix `AppName-role-`
followed by the normalized name of a configured container; that instance-name portion
contains no `_`, space or `:`, and the whole name contains none when the role name
contains none. -/
theorem Get_names_normalized {E P V PC VC : Type} (env : Env E P V PC VC)
    (cf : configFile PC VC) (engine : E) (provisioner : P) (verifier : V)
    (cwd cwdNoSymlinks : GoString)
    (hRead : env.ReadInConfig = none) (hDecode : env.Unmarshal = .ok cf)
    (hEngine : env.NewEngine cf.Engine.Name = .ok engine)
    (hProv : env.NewProvisioner cf.Provisioner = .ok provisioner)
    (hVer : env.NewVerifier cf.Verifier = .ok verifier)
    (hCwd : env.Getwd = .ok cwd) (hSym : env.EvalSymlinks cwd = .ok cwdNoSymlinks) :
    ∃ cfg : Config E P V,
      Get env = .returned (.ok cfg) ∧
      cfg.Instances.map (fun i => i.Name) =
        cf.Containers.map (fun c => namePrefix (env.Base cwd) ++ normalize c.Name) ∧
      (∀ c ∈ cf.Containers, ∀ b ∈ normalize c.Name, ¬ hostile b) ∧
      ((∀ b ∈ env.Base cwd, ¬ hostile b) →
        ∀ i ∈ cfg.Instances, ∀ b ∈ i.Name, ¬ hostile b) := by
  refine ⟨_, Get_ok env cf engine provisioner verifier cwd cwdNoSymlinks hRead hDecode hEngine
    hProv hVer hCwd hSym, ?_, ?_, ?_⟩
  · simp [generateContainerName_split]
  · intro c _
    exact normalize_not_hostile c.Name
  · intro hr i hi b hb
    simp only [List.mem_map] at hi
    obtain ⟨c, _, rfl⟩ := hi
    simp only [generateContainerName_split, List.mem_append] at hb
    rcases hb with hb | hb
    · exact namePrefix_not_hostile _ hr b hb
    · exact normalize_not_hostile _ b hb

theorem Get_names_normalized_witness :
    ∃ cfg : Config Unit Unit Unit,
      Get plainEnv = .returned (.ok cfg) ∧
      cfg.Instances.map (fun i => i.Name) =
        plainFile.Containers.map
          (fun c => namePrefix (plainEnv.Base (str "/home/dev/myrole")) ++ normalize c.Name) ∧
      (∀ c ∈ plainFile.Containers, ∀ b ∈ normalize c.Name, ¬ hostile b) ∧
      ((∀ b ∈ plainEnv.Base (str "/home/dev/myrole"), ¬ hostile b) →
        ∀ i ∈ cfg.Instances, ∀ b ∈ i.Name, ¬ hostile b) :=
  Get_names_normalized plainEnv plainFile () () () (str "/home/dev/myrole")
    (str "/srv/roles/myrole") rfl rfl rfl rfl rfl rfl rfl

end Rolecule
